import Mathlib

/-!
Shallow embedding of the neuro-suite blink/HRV scan pipeline.

The embedded code is the `WebcamCapture` component (src/unnamed/part_000:
`calculateEAR`, `processFrame`, `stopWebcam`, `handleVisibilityChange`) and
the `NeuroScore` component (`handleBlinkDetected`).  JavaScript numbers are
modelled by rationals together with the IEEE special values `+Inf`, `-Inf`
and `NaN` (type `F` below); epoch-millisecond timestamps are modelled by
integers.  `Math.sqrt` is modelled by `qsqrt`, which agrees with the exact
square root on perfect-square rationals (every concrete input used in the
theorems below has perfect-square distances, and no theorem depends on the
value of `qsqrt` elsewhere: the degenerate-geometry results only use that
its output is nonnegative).
-/

/-- IEEE-style extended number: a finite rational, `+Inf`, `-Inf` or `NaN`. -/
inductive F where
  | fin (q : ℚ)
  | pinf
  | ninf
  | nan
deriving DecidableEq, Repr

/-- Rational square root, exact on perfect squares and nonnegative everywhere. -/
def qsqrt (q : ℚ) : ℚ := (Nat.sqrt q.num.toNat : ℚ) / (Nat.sqrt q.den : ℚ)

/-- JS addition on extended numbers. -/
def fadd : F → F → F
  | F.nan, _ => F.nan
  | _, F.nan => F.nan
  | F.pinf, F.ninf => F.nan
  | F.ninf, F.pinf => F.nan
  | F.pinf, _ => F.pinf
  | _, F.pinf => F.pinf
  | F.ninf, _ => F.ninf
  | _, F.ninf => F.ninf
  | F.fin a, F.fin b => F.fin (a + b)

/-- JS subtraction on extended numbers. -/
def fsub : F → F → F
  | F.nan, _ => F.nan
  | _, F.nan => F.nan
  | F.pinf, F.pinf => F.nan
  | F.ninf, F.ninf => F.nan
  | F.pinf, _ => F.pinf
  | _, F.pinf => F.ninf
  | F.ninf, _ => F.ninf
  | _, F.ninf => F.pinf
  | F.fin a, F.fin b => F.fin (a - b)

/-- JS squaring (`Math.pow(x, 2)`). -/
def fsq : F → F
  | F.fin a => F.fin (a * a)
  | F.pinf => F.pinf
  | F.ninf => F.pinf
  | F.nan => F.nan

/-- JS multiplication on extended numbers. -/
def fmul : F → F → F
  | F.nan, _ => F.nan
  | _, F.nan => F.nan
  | F.pinf, F.pinf => F.pinf
  | F.pinf, F.ninf => F.ninf
  | F.ninf, F.pinf => F.ninf
  | F.ninf, F.ninf => F.pinf
  | F.pinf, F.fin b => if 0 < b then F.pinf else if b < 0 then F.ninf else F.nan
  | F.fin a, F.pinf => if 0 < a then F.pinf else if a < 0 then F.ninf else F.nan
  | F.ninf, F.fin b => if 0 < b then F.ninf else if b < 0 then F.pinf else F.nan
  | F.fin a, F.ninf => if 0 < a then F.ninf else if a < 0 then F.pinf else F.nan
  | F.fin a, F.fin b => F.fin (a * b)

/-- JS division on extended numbers (division by the unsigned rational zero is
read as division by IEEE `+0`). -/
def fdiv : F → F → F
  | F.nan, _ => F.nan
  | _, F.nan => F.nan
  | F.pinf, F.pinf => F.nan
  | F.pinf, F.ninf => F.nan
  | F.ninf, F.pinf => F.nan
  | F.ninf, F.ninf => F.nan
  | F.pinf, F.fin b => if 0 ≤ b then F.pinf else F.ninf
  | F.ninf, F.fin b => if 0 ≤ b then F.ninf else F.pinf
  | F.fin _, F.pinf => F.fin 0
  | F.fin _, F.ninf => F.fin 0
  | F.fin a, F.fin b =>
      if b = 0 then (if 0 < a then F.pinf else if a < 0 then F.ninf else F.nan)
      else F.fin (a / b)

/-- JS `Math.sqrt` on extended numbers. -/
def fsqrt : F → F
  | F.fin a => if a < 0 then F.nan else F.fin (qsqrt a)
  | F.pinf => F.pinf
  | F.ninf => F.nan
  | F.nan => F.nan

/-- JS strict greater-than against a finite threshold (`NaN` compares false). -/
def fgt (x : F) (t : ℚ) : Bool :=
  match x with
  | F.fin q => t < q
  | F.pinf => true
  | F.ninf => false
  | F.nan => false

/-- JS less-or-equal against a finite threshold (`NaN` compares false). -/
def fle (x : F) (t : ℚ) : Bool :=
  match x with
  | F.fin q => q ≤ t
  | F.pinf => false
  | F.ninf => true
  | F.nan => false

/-- One MediaPipe face landmark: normalized 3D point with JS-number coords. -/
structure Pt where
  x : F
  y : F
  z : F
deriving DecidableEq, Repr

/-- Placeholder landmark for an out-of-range index. -/
def ptNan : Pt := ⟨F.nan, F.nan, F.nan⟩

/-- Euclidean distance between two landmarks, as written in `calculateEAR`:
`Math.sqrt(pow(dx,2) + pow(dy,2) + pow(dz,2))`. -/
def fdist (p q : Pt) : F :=
  fsqrt (fadd (fadd (fsq (fsub p.x q.x)) (fsq (fsub p.y q.y))) (fsq (fsub p.z q.z)))

/-- Per-eye aspect ratio `getEAR` from `calculateEAR`: the six indices are
outer corner, top1, top2, inner corner, bottom1, bottom2, and the ratio is
`(vertical1 + vertical2) / (2.0 * horizontal)`. -/
def getEAR (lm : List Pt) (i0 i1 i2 i3 i4 i5 : ℕ) : F :=
  let outerCorner := lm.getD i0 ptNan
  let top1 := lm.getD i1 ptNan
  let top2 := lm.getD i2 ptNan
  let innerCorner := lm.getD i3 ptNan
  let bottom1 := lm.getD i4 ptNan
  let bottom2 := lm.getD i5 ptNan
  let vertical1 := fdist top1 bottom1
  let vertical2 := fdist top2 bottom2
  let horizontal := fdist outerCorner innerCorner
  fdiv (fadd vertical1 vertical2) (fmul (F.fin 2) horizontal)

/-- Combined eye aspect ratio `calculateEAR`: average of the left-eye ratio
(indices 33,160,158,133,144,153) and the right-eye ratio
(indices 362,385,387,263,380,373). -/
def calculateEAR (lm : List Pt) : F :=
  fdiv (fadd (getEAR lm 33 160 158 133 144 153) (getEAR lm 362 385 387 263 380 373))
    (F.fin 2)

/-- JS `Math.round`: half-way cases round toward positive infinity. -/
def jsRound (q : ℚ) : ℤ := ⌊q + 1 / 2⌋

/-- Rounding to 3 decimal places: `Math.round(x * 1000) / 1000`. -/
def round3 (q : ℚ) : ℚ := (jsRound (q * 1000) : ℚ) / 1000

/-- Session-scoped mutable state of `WebcamCapture` touched by `processFrame`:
the refs `blinkCountRef`, `lastEARRef`, `lastBlinkTimeRef`, `noFaceFramesRef`,
`scanStartTimeRef`, `backgroundDataRef` and the React states `faceDetected`,
`lowLightWarning`, `currentBlinkRate`, plus the terminal effects
(`onBlinkDetected` payload in `result`, loop-stopped flag in `done`). -/
structure ScanState where
  blinkCount : ℕ
  lastEAR : F
  lastBlinkTime : ℤ
  noFaceFrames : ℕ
  scanStartTime : ℤ
  faceDetected : Bool
  lowLightWarning : Bool
  currentBlinkRate : ℚ
  result : Option ℚ
  done : Bool
  bgBlinks : List ℕ
  bgTimestamps : List ℤ
deriving DecidableEq, Repr

/-- Initial per-session state set by the scan-start effect:
`blinkCountRef = 0`, `currentBlinkRate = 0`, `scanStartTimeRef = 0`,
`lastEARRef = 0.3`, `lastBlinkTimeRef = 0`. -/
def initState : ScanState :=
  { blinkCount := 0
    lastEAR := F.fin (3 / 10)
    lastBlinkTime := 0
    noFaceFrames := 0
    scanStartTime := 0
    faceDetected := true
    lowLightWarning := false
    currentBlinkRate := 0
    result := none
    done := false
    bgBlinks := []
    bgTimestamps := [] }

/-- Closed-eye threshold `EAR_THRESHOLD`: 0.12 on mobile, 0.15 on desktop. -/
def earThreshold (isMobile : Bool) : ℚ := if isMobile then 12 / 100 else 15 / 100

/-- Reopen threshold `EAR_OPEN`: 0.18 on mobile, 0.20 on desktop. -/
def earOpen (isMobile : Bool) : ℚ := if isMobile then 18 / 100 else 20 / 100

/-- Debounce interval in milliseconds. -/
def DEBOUNCE_MS : ℤ := 100

/-- Face-detected branch of `processFrame`, with `currentEAR` the value
`calculateEAR` returned for this tick and `now` the tick's `Date.now()`.
Mirrors the source order: reset the no-face watchdog, blink
detection/debounce, store `lastEAR`, set the scan start on the first
successful tick, recompute the exposed rate when elapsed time is positive,
then finalize once 60 s have elapsed. -/
def tickFace (isMobile backgrounded : Bool) (now : ℤ) (currentEAR : F)
    (s : ScanState) : ScanState :=
  let s1 := { s with noFaceFrames := 0, faceDetected := true, lowLightWarning := false }
  let timeSinceLastBlink : ℤ := now - s1.lastBlinkTime
  let blink : Bool :=
    fgt s1.lastEAR (earOpen isMobile) && fle currentEAR (earThreshold isMobile) &&
      decide (DEBOUNCE_MS < timeSinceLastBlink)
  let s2 :=
    if blink then
      { s1 with
        blinkCount := s1.blinkCount + 1
        lastBlinkTime := now
        bgBlinks := if backgrounded then s1.bgBlinks ++ [s1.blinkCount + 1] else s1.bgBlinks
        bgTimestamps := if backgrounded then s1.bgTimestamps ++ [now] else s1.bgTimestamps }
    else s1
  let s3 := { s2 with lastEAR := currentEAR }
  let s4 := if s3.scanStartTime = 0 then { s3 with scanStartTime := now } else s3
  let elapsedTime : ℚ := ((now - s4.scanStartTime : ℤ) : ℚ) / 1000
  let s5 :=
    if 0 < elapsedTime then
      { s4 with currentBlinkRate := round3 ((s4.blinkCount : ℚ) / elapsedTime * 60) }
    else s4
  if 60 ≤ elapsedTime then
    { s5 with result := some ((s5.blinkCount : ℚ) / (elapsedTime / 60)), done := true }
  else s5

/-- No-face branch of `processFrame`: increment the consecutive no-face
counter; past 10 clear `faceDetected`, past 30 raise the low-light warning. -/
def tickNoFace (s : ScanState) : ScanState :=
  let n := s.noFaceFrames + 1
  { s with
    noFaceFrames := n
    faceDetected := if 10 < n then false else s.faceDetected
    lowLightWarning := if 30 < n then true else s.lowLightWarning }

/-- One call of `processFrame`: dispatch on whether landmark detection
produced a face.  The early returns of the source (`videoRef` null, stream
not ready, `!isScanning`) leave the state untouched and are modelled by the
run function below not delivering such ticks. -/
def processFrame (isMobile backgrounded : Bool) (now : ℤ)
    (det : Option (List Pt)) (s : ScanState) : ScanState :=
  match det with
  | some lm => tickFace isMobile backgrounded now (calculateEAR lm) s
  | none => tickNoFace s

/-- Environment input for one scheduled tick: wall-clock time, the landmark
detection outcome, and the advisory backgrounded (page-hidden) flag. -/
structure Tick where
  now : ℤ
  det : Option (List Pt)
  backgrounded : Bool

/-- One scheduler step: after finalization (`onScanComplete` cleared the
interval and `isScanning` is false) further ticks are not processed. -/
def stepTick (isMobile : Bool) (s : ScanState) (t : Tick) : ScanState :=
  if s.done then s else processFrame isMobile t.backgrounded t.now t.det s

/-- Run a whole list of ticks through the session loop. -/
def runTicks (isMobile : Bool) (s : ScanState) (ts : List Tick) : ScanState :=
  ts.foldl (stepTick isMobile) s

/-- Per-tick trace of session states (the progress stream). -/
def runTrace (isMobile : Bool) (s : ScanState) : List Tick → List ScanState
  | [] => []
  | t :: ts =>
      let s1 := stepTick isMobile s t
      s1 :: runTrace isMobile s1 ts

/-- Stress tiers used by `NeuroScore`. -/
inductive Stress where
  | low
  | moderate
  | high
deriving DecidableEq, Repr

/-- Result messages chosen by `handleBlinkDetected` (the literal strings are
abstracted to an enumeration). -/
inductive Msg where
  | low
  | moderate
  | high
  | crossVal
deriving DecidableEq, Repr

/-- JS truthiness of the optional `hrvValue` number: `undefined` and `0` are
falsy. -/
def truthy : Option ℚ → Bool
  | none => false
  | some v => v ≠ 0

/-- Independent stress tier from the blink rate alone, as the first
`if`-chain of `handleBlinkDetected`: start at low, `15 ≤ r ≤ 25` gives
moderate, else `r > 25` gives high. -/
def independentLevel (blinkRate : ℚ) : Stress :=
  if 15 ≤ blinkRate ∧ blinkRate ≤ 25 then Stress.moderate
  else if 25 < blinkRate then Stress.high
  else Stress.low

/-- Cross-validation guard of `handleBlinkDetected`:
`hrvValue && hrvValue < 30 && blinkRate > 25`. -/
def crossValTriggered (blinkRate : ℚ) (hrvValue : Option ℚ) : Bool :=
  truthy hrvValue && decide (hrvValue.getD 0 < 30) && decide (25 < blinkRate)

/-- Observable outcome of one `handleBlinkDetected` call: the tier and
message shown in the result card (set before cross-validation), the tier and
message handed to the database insert / `onScoreComplete`, and the stored
`hrv_value` (`hrvValue || null`). -/
structure ScoreOutcome where
  displayLevel : Stress
  finalLevel : Stress
  finalMsg : Msg
  storedHrv : Option ℚ
  displayedRate : ℚ
deriving DecidableEq, Repr

/-- Message that accompanies each independent tier. -/
def levelMsg : Stress → Msg
  | Stress.low => Msg.low
  | Stress.moderate => Msg.moderate
  | Stress.high => Msg.high

/-- The `handleBlinkDetected` finalization handler of `NeuroScore`:
classify independently, display that result (`setResult` with the rate
rounded to one decimal), then apply the cross-validation escalation before
persisting and notifying collaborators. -/
def handleBlinkDetected (blinkRate : ℚ) (hrvValue : Option ℚ) : ScoreOutcome :=
  let lvl := independentLevel blinkRate
  let displayed := (jsRound (blinkRate * 10) : ℚ) / 10
  let escalate := crossValTriggered blinkRate hrvValue
  { displayLevel := lvl
    finalLevel := if escalate then Stress.high else lvl
    finalMsg := if escalate then Msg.crossVal else levelMsg lvl
    storedHrv := if truthy hrvValue then hrvValue else none
    displayedRate := displayed }

/-- State of the webcam media stream: `none` models `srcObject === null`,
`some n` a stream holding `n` tracks. -/
def CamState : Type := Option ℕ

/-- The `stopWebcam` helper: when a stream is attached, stop every track and
clear `srcObject`; otherwise do nothing.  The second component counts the
`track.stop()` calls performed (the device-release actions). -/
def stopWebcam : CamState → CamState × ℕ
  | none => (none, 0)
  | some n => (none, n)

/-- Modelled from the spec: the rPPG pulse sample of §4.5 — the `HRVMonitor`
component is not among the provided sources, so the HRV estimator is
modelled from the specification text.  Timestamp in milliseconds and mean
ROI channel intensity. -/
structure PulseSample where
  t : ℚ
  v : ℚ
deriving DecidableEq, Repr

/-- Modelled from the spec: `HRVResult` of §3.  `rmssdSqMs` is the square of
the RMSSD in ms (the mean of the squared successive inter-beat-interval
differences); carrying the square keeps the estimator computable over ℚ, and
RMSSD-threshold comparisons transfer through the monotone square root. -/
structure HRVResult where
  rmssdSqMs : ℚ
  heartRateBpm : ℚ
  sampleCount : ℕ
deriving DecidableEq, Repr

/-- Indices of strict local maxima of an intensity trace (the detected pulse
peaks of §4.5). -/
def peakIndices (vs : List ℚ) : List ℕ :=
  (List.range vs.length).filter fun i =>
    decide (0 < i) && decide (i + 1 < vs.length) &&
      decide (vs.getD (i - 1) 0 < vs.getD i 0) &&
      decide (vs.getD (i + 1) 0 < vs.getD i 0)

/-- Successive differences of a list. -/
def succDiffs : List ℚ → List ℚ
  | a :: b :: rest => (b - a) :: succDiffs (b :: rest)
  | _ => []

/-- Mean of a list of rationals (0 on the empty list). -/
def listMean (xs : List ℚ) : ℚ := xs.sum / (xs.length : ℚ)

/-- Time span covered by a rolling pulse-sample buffer, in ms. -/
def traceDuration (samples : List PulseSample) : ℚ :=
  ((samples.map PulseSample.t).getLast?).getD 0 - (samples.map PulseSample.t).headI

/-- Modelled from the spec: the HRV estimator of §4.5.  The rolling buffer
must span at least `minDurMs`; peaks are strict local maxima of the
(band-limited) intensity trace — the claims are settled on already
band-limited traces, where the 0.75–3 Hz filter is the identity; inter-beat
intervals are the successive peak-time differences; RMSSD is the
root-mean-square of successive IBI differences (its square is returned);
heart rate is `60 / mean(IBI)` with IBIs in ms, i.e. `60000 / meanIbi` bpm.
Insufficient duration or fewer than two peaks yields `none`. -/
def hrvEstimate (minDurMs : ℚ) (samples : List PulseSample) : Option HRVResult :=
  let ts := samples.map PulseSample.t
  if traceDuration samples < minDurMs then none
  else
    let peaks := peakIndices (samples.map PulseSample.v)
    if peaks.length < 2 then none
    else
      let peakTimes := peaks.map fun i => ts.getD i 0
      let ibis := succDiffs peakTimes
      let meanIbi := listMean ibis
      let diffs := succDiffs ibis
      some
        { rmssdSqMs := listMean (diffs.map fun d => d * d)
          heartRateBpm := 60000 / meanIbi
          sampleCount := samples.length }

/-- Synthetic 72 bpm intensity trace: 181 samples at 6 Hz (one sample every
500/3 ms, spanning exactly 30 s) tracing a triangular pulse of period five
samples, i.e. period 2500/3 ms = 1.2 Hz = 72 bpm. -/
def synthTrace : List PulseSample :=
  (List.range 181).map fun (i : ℕ) =>
    { t := (i : ℚ) * (500 / 3)
      v := (([0, 1, 2, 1, 0] : List ℚ).getD (i % 5) 0) }

/-- A landmark with some `NaN` coordinate. -/
def hasNanPt (p : Pt) : Prop := p.x = F.nan ∨ p.y = F.nan ∨ p.z = F.nan

/-- A non-finite JS number: `+Inf`, `-Inf` or `NaN`. -/
def NonfiniteCoord (x : F) : Prop := x = F.pinf ∨ x = F.ninf ∨ x = F.nan

/-- A landmark with some non-finite coordinate. -/
def hasNonfinitePt (p : Pt) : Prop :=
  NonfiniteCoord p.x ∨ NonfiniteCoord p.y ∨ NonfiniteCoord p.z

/-- The twelve landmark indices `calculateEAR` reads. -/
def usedIndices : List ℕ := [33, 160, 158, 133, 144, 153, 362, 385, 387, 263, 380, 373]

/-- Degenerate landmark geometry in the sense of the spec: a zero horizontal
corner-to-corner distance on either eye, or any non-finite coordinate among
the landmarks the evaluator reads. -/
def degenerateLm (lm : List Pt) : Prop :=
  fdist (lm.getD 33 ptNan) (lm.getD 133 ptNan) = F.fin 0 ∨
  fdist (lm.getD 362 ptNan) (lm.getD 263 ptNan) = F.fin 0 ∨
  ∃ i ∈ usedIndices, hasNonfinitePt (lm.getD i ptNan)

/-- Extended numbers that are either a nonnegative finite value, `+Inf` or
`NaN` — the closure of distance/ratio computations. -/
def NonnegF (x : F) : Prop := (∃ q, 0 ≤ q ∧ x = F.fin q) ∨ x = F.pinf ∨ x = F.nan

/-- Non-finite extended numbers (`+Inf` or `NaN`). -/
def NonfiniteF (x : F) : Prop := x = F.pinf ∨ x = F.nan

theorem qsqrt_nonneg (q : ℚ) : 0 ≤ qsqrt q := by
  unfold qsqrt
  positivity

theorem fsqrt_nonnegF (x : F) : NonnegF (fsqrt x) := by
  cases x with
  | fin a =>
      by_cases h : a < 0
      · exact Or.inr (Or.inr (by simp [fsqrt, h]))
      · exact Or.inl ⟨qsqrt a, qsqrt_nonneg a, by simp [fsqrt, h]⟩
  | pinf => exact Or.inr (Or.inl rfl)
  | ninf => exact Or.inr (Or.inr rfl)
  | nan => exact Or.inr (Or.inr rfl)

theorem fadd_nonnegF {a b : F} (ha : NonnegF a) (hb : NonnegF b) : NonnegF (fadd a b) := by
  rcases ha with ⟨q, hq, rfl⟩ | rfl | rfl <;> rcases hb with ⟨r, hr, rfl⟩ | rfl | rfl
  · exact Or.inl ⟨q + r, by linarith, rfl⟩
  · exact Or.inr (Or.inl rfl)
  · exact Or.inr (Or.inr rfl)
  · exact Or.inr (Or.inl rfl)
  · exact Or.inr (Or.inl rfl)
  · exact Or.inr (Or.inr rfl)
  · exact Or.inr (Or.inr rfl)
  · exact Or.inr (Or.inr rfl)
  · exact Or.inr (Or.inr rfl)

theorem fmul_two_nonnegF {h : F} (hh : NonnegF h) : NonnegF (fmul (F.fin 2) h) := by
  rcases hh with ⟨q, hq, rfl⟩ | rfl | rfl
  · exact Or.inl ⟨2 * q, by linarith, rfl⟩
  · refine Or.inr (Or.inl ?_)
    show (if (0 : ℚ) < 2 then F.pinf else if (2 : ℚ) < 0 then F.ninf else F.nan) = F.pinf
    norm_num
  · exact Or.inr (Or.inr rfl)

theorem fdiv_nonnegF {a b : F} (ha : NonnegF a) (hb : NonnegF b) : NonnegF (fdiv a b) := by
  rcases ha with ⟨q, hq, rfl⟩ | rfl | rfl <;> rcases hb with ⟨r, hr, rfl⟩ | rfl | rfl
  · by_cases hr0 : r = 0
    · subst hr0
      by_cases hq0 : 0 < q
      · refine Or.inr (Or.inl ?_)
        simp [fdiv, hq0]
      · have hq' : q = 0 := le_antisymm (not_lt.mp hq0) hq
        refine Or.inr (Or.inr ?_)
        simp [fdiv, hq']
    · refine Or.inl ⟨q / r, div_nonneg hq hr, ?_⟩
      simp [fdiv, hr0]
  · exact Or.inl ⟨0, le_refl 0, rfl⟩
  · exact Or.inr (Or.inr rfl)
  · refine Or.inr (Or.inl ?_)
    simp [fdiv, hr]
  · exact Or.inr (Or.inr rfl)
  · exact Or.inr (Or.inr rfl)
  · exact Or.inr (Or.inr rfl)
  · exact Or.inr (Or.inr rfl)
  · exact Or.inr (Or.inr rfl)

theorem getEAR_nonnegF (lm : List Pt) (i0 i1 i2 i3 i4 i5 : ℕ) :
    NonnegF (getEAR lm i0 i1 i2 i3 i4 i5) := by
  unfold getEAR fdist
  exact fdiv_nonnegF (fadd_nonnegF (fsqrt_nonnegF _) (fsqrt_nonnegF _))
    (fmul_two_nonnegF (fsqrt_nonnegF _))

theorem fsq_nan : fsq F.nan = F.nan := rfl

theorem fsqrt_nan : fsqrt F.nan = F.nan := rfl

theorem fadd_nan_left (b : F) : fadd F.nan b = F.nan := by cases b <;> rfl

theorem fadd_nan_right (a : F) : fadd a F.nan = F.nan := by cases a <;> rfl

theorem fdiv_nan_left (b : F) : fdiv F.nan b = F.nan := by cases b <;> rfl

theorem fdiv_nan_right (a : F) : fdiv a F.nan = F.nan := by cases a <;> rfl

theorem fmul_nan_right (a : F) : fmul a F.nan = F.nan := by cases a <;> rfl

theorem fsub_nan (a b : F) (h : a = F.nan ∨ b = F.nan) : fsub a b = F.nan := by
  rcases h with rfl | rfl
  · cases b <;> rfl
  · cases a <;> rfl

theorem fdist_nonnegF (p q : Pt) : NonnegF (fdist p q) := by
  unfold fdist
  exact fsqrt_nonnegF _

theorem fdist_nan (p q : Pt) (h : hasNanPt p ∨ hasNanPt q) : fdist p q = F.nan := by
  have hcoord : fsub p.x q.x = F.nan ∨ fsub p.y q.y = F.nan ∨ fsub p.z q.z = F.nan := by
    simp only [hasNanPt] at h
    rcases h with (h | h | h) | (h | h | h)
    · exact Or.inl (fsub_nan _ _ (Or.inl h))
    · exact Or.inr (Or.inl (fsub_nan _ _ (Or.inl h)))
    · exact Or.inr (Or.inr (fsub_nan _ _ (Or.inl h)))
    · exact Or.inl (fsub_nan _ _ (Or.inr h))
    · exact Or.inr (Or.inl (fsub_nan _ _ (Or.inr h)))
    · exact Or.inr (Or.inr (fsub_nan _ _ (Or.inr h)))
  unfold fdist
  rcases hcoord with hc | hc | hc
  · rw [hc, fsq_nan, fadd_nan_left, fadd_nan_left, fsqrt_nan]
  · rw [hc, fsq_nan, fadd_nan_right, fadd_nan_left, fsqrt_nan]
  · rw [hc, fsq_nan, fadd_nan_right, fsqrt_nan]

theorem getEAR_nan (lm : List Pt) (i0 i1 i2 i3 i4 i5 : ℕ)
    (h : hasNanPt (lm.getD i0 ptNan) ∨ hasNanPt (lm.getD i1 ptNan) ∨
      hasNanPt (lm.getD i2 ptNan) ∨ hasNanPt (lm.getD i3 ptNan) ∨
      hasNanPt (lm.getD i4 ptNan) ∨ hasNanPt (lm.getD i5 ptNan)) :
    getEAR lm i0 i1 i2 i3 i4 i5 = F.nan := by
  simp only [getEAR]
  rcases h with h | h | h | h | h | h
  · rw [fdist_nan _ _ (Or.inl h), fmul_nan_right, fdiv_nan_right]
  · rw [fdist_nan (lm.getD i1 ptNan) _ (Or.inl h), fadd_nan_left, fdiv_nan_left]
  · rw [fdist_nan (lm.getD i2 ptNan) _ (Or.inl h), fadd_nan_right, fdiv_nan_left]
  · rw [fdist_nan _ (lm.getD i3 ptNan) (Or.inr h), fmul_nan_right, fdiv_nan_right]
  · rw [fdist_nan (lm.getD i1 ptNan) _ (Or.inr h), fadd_nan_left, fdiv_nan_left]
  · rw [fdist_nan (lm.getD i2 ptNan) _ (Or.inr h), fadd_nan_right, fdiv_nan_left]

theorem getEAR_h0 (lm : List Pt) (i0 i1 i2 i3 i4 i5 : ℕ)
    (h : fdist (lm.getD i0 ptNan) (lm.getD i3 ptNan) = F.fin 0) :
    NonfiniteF (getEAR lm i0 i1 i2 i3 i4 i5) := by
  simp only [getEAR, h]
  rw [show fmul (F.fin 2) (F.fin 0) = F.fin 0 by norm_num [fmul]]
  have hnum := fadd_nonnegF (fdist_nonnegF (lm.getD i1 ptNan) (lm.getD i4 ptNan))
    (fdist_nonnegF (lm.getD i2 ptNan) (lm.getD i5 ptNan))
  rcases hnum with ⟨q, hq, hfq⟩ | hp | hn
  · rw [hfq]
    by_cases h0 : 0 < q
    · exact Or.inl (by simp [fdiv, h0])
    · have hq0 : q = 0 := le_antisymm (not_lt.mp h0) hq
      exact Or.inr (by simp [fdiv, hq0])
  · rw [hp]
    exact Or.inl (by norm_num [fdiv])
  · rw [hn]
    exact Or.inr (fdiv_nan_left _)

theorem calculateEAR_nonfinite (lm : List Pt)
    (h : NonfiniteF (getEAR lm 33 160 158 133 144 153) ∨
      NonfiniteF (getEAR lm 362 385 387 263 380 373)) :
    NonfiniteF (calculateEAR lm) := by
  have hl := getEAR_nonnegF lm 33 160 158 133 144 153
  have hr := getEAR_nonnegF lm 362 385 387 263 380 373
  unfold calculateEAR
  rcases h with (hL | hL) | (hR | hR)
  · rw [hL]
    rcases hr with ⟨r, _, hfr⟩ | hp | hn
    · rw [hfr]
      exact Or.inl (by norm_num [fadd, fdiv])
    · rw [hp]
      exact Or.inl (by norm_num [fadd, fdiv])
    · rw [hn, fadd_nan_right]
      exact Or.inr (fdiv_nan_left _)
  · rw [hL, fadd_nan_left]
    exact Or.inr (fdiv_nan_left _)
  · rw [hR]
    rcases hl with ⟨q, _, hfq⟩ | hp | hn
    · rw [hfq]
      exact Or.inl (by norm_num [fadd, fdiv])
    · rw [hp]
      exact Or.inl (by norm_num [fadd, fdiv])
    · rw [hn, fadd_nan_left]
      exact Or.inr (fdiv_nan_left _)
  · rw [hR, fadd_nan_right]
    exact Or.inr (fdiv_nan_left _)

theorem zeroHOrNan_nonfiniteEAR (lm : List Pt)
    (h : fdist (lm.getD 33 ptNan) (lm.getD 133 ptNan) = F.fin 0 ∨
      fdist (lm.getD 362 ptNan) (lm.getD 263 ptNan) = F.fin 0 ∨
      ∃ i ∈ usedIndices, hasNanPt (lm.getD i ptNan)) :
    NonfiniteF (calculateEAR lm) := by
  rcases h with h | h | ⟨i, hi, hnan⟩
  · exact calculateEAR_nonfinite lm (Or.inl (getEAR_h0 lm 33 160 158 133 144 153 h))
  · exact calculateEAR_nonfinite lm (Or.inr (getEAR_h0 lm 362 385 387 263 380 373 h))
  · apply calculateEAR_nonfinite lm
    fin_cases hi
    · exact Or.inl (Or.inr (getEAR_nan _ _ _ _ _ _ _ (Or.inl hnan)))
    · exact Or.inl (Or.inr (getEAR_nan _ _ _ _ _ _ _ (Or.inr (Or.inl hnan))))
    · exact Or.inl (Or.inr (getEAR_nan _ _ _ _ _ _ _ (Or.inr (Or.inr (Or.inl hnan)))))
    · exact Or.inl (Or.inr (getEAR_nan _ _ _ _ _ _ _
        (Or.inr (Or.inr (Or.inr (Or.inl hnan))))))
    · exact Or.inl (Or.inr (getEAR_nan _ _ _ _ _ _ _
        (Or.inr (Or.inr (Or.inr (Or.inr (Or.inl hnan)))))))
    · exact Or.inl (Or.inr (getEAR_nan _ _ _ _ _ _ _
        (Or.inr (Or.inr (Or.inr (Or.inr (Or.inr hnan)))))))
    · exact Or.inr (Or.inr (getEAR_nan _ _ _ _ _ _ _ (Or.inl hnan)))
    · exact Or.inr (Or.inr (getEAR_nan _ _ _ _ _ _ _ (Or.inr (Or.inl hnan))))
    · exact Or.inr (Or.inr (getEAR_nan _ _ _ _ _ _ _ (Or.inr (Or.inr (Or.inl hnan)))))
    · exact Or.inr (Or.inr (getEAR_nan _ _ _ _ _ _ _
        (Or.inr (Or.inr (Or.inr (Or.inl hnan))))))
    · exact Or.inr (Or.inr (getEAR_nan _ _ _ _ _ _ _
        (Or.inr (Or.inr (Or.inr (Or.inr (Or.inl hnan)))))))
    · exact Or.inr (Or.inr (getEAR_nan _ _ _ _ _ _ _
        (Or.inr (Or.inr (Or.inr (Or.inr (Or.inr hnan)))))))

/-- All-zero landmark: every coordinate is the finite value 0. -/
def zeroPt : Pt := ⟨F.fin 0, F.fin 0, F.fin 0⟩

/-- A degenerate landmark set: all 388 points coincide, so every
corner-to-corner distance is exactly 0 and the aspect ratio is `0 / 0`. -/
def degLm : List Pt := List.replicate 388 zeroPt

/-- Landmark whose x-coordinate is `+Infinity`. -/
def infPt : Pt := ⟨F.pinf, F.fin 0, F.fin 0⟩

/-- A degenerate landmark set with an infinite coordinate: the two outer
eye corners sit at `x = +Infinity`, every other point at the origin.  Both
horizontal distances are `+Infinity`, so each eye ratio is `0 / Infinity =
0` — a FINITE combined ratio below the closed threshold. -/
def infLm : List Pt :=
  (List.range 388).map fun i => if i = 33 ∨ i = 362 then infPt else zeroPt

/-- Observable part of the session state: everything except the
`backgroundDataRef` bookkeeping (the only state the backgrounded flag can
touch). -/
def eraseBg (s : ScanState) : ScanState := { s with bgBlinks := [], bgTimestamps := [] }

/-- Two environment ticks that agree on everything the camera produces and
differ at most in the advisory backgrounded flag. -/
def sameObs (t u : Tick) : Prop := t.now = u.now ∧ t.det = u.det

section ClaimTheorems

attribute [local semireducible] Rat.add Rat.mul Rat.inv Rat.sub Rat.ofScientific

set_option maxRecDepth 10000

theorem tickFace_blinkCount (m bg : Bool) (now : ℤ) (ear : F) (s : ScanState) :
    (tickFace m bg now ear s).blinkCount =
      if fgt s.lastEAR (earOpen m) && fle ear (earThreshold m) &&
          decide (DEBOUNCE_MS < now - s.lastBlinkTime) then s.blinkCount + 1
      else s.blinkCount := by
  simp only [tickFace]
  split_ifs <;> simp_all

/-- C10: a no-face tick only advances the watchdog counter and the two
warning flags; blink count, detector memory, timing, exposed rate and
termination state are all untouched, and the rate/termination logic of the
face branch is not reached. -/
theorem C10_noFaceFrame (m bg : Bool) (now : ℤ) (s : ScanState) :
    processFrame m bg now none s = tickNoFace s ∧
    (tickNoFace s).blinkCount = s.blinkCount ∧
    (tickNoFace s).lastEAR = s.lastEAR ∧
    (tickNoFace s).lastBlinkTime = s.lastBlinkTime ∧
    (tickNoFace s).scanStartTime = s.scanStartTime ∧
    (tickNoFace s).currentBlinkRate = s.currentBlinkRate ∧
    (tickNoFace s).result = s.result ∧
    (tickNoFace s).done = s.done ∧
    (tickNoFace s).bgBlinks = s.bgBlinks ∧
    (tickNoFace s).bgTimestamps = s.bgTimestamps ∧
    (tickNoFace s).noFaceFrames = s.noFaceFrames + 1 :=
  ⟨rfl, rfl, rfl, rfl, rfl, rfl, rfl, rfl, rfl, rfl, rfl⟩

/-- C7: releasing the capture device is idempotent — after one `stopWebcam`
the stream reference is cleared, and a second call performs zero further
`track.stop()` actions and leaves the state unchanged (it is a total
function, so no error is raised). -/
theorem C7_stopWebcamIdempotent (c : CamState) :
    (stopWebcam c).1 = none ∧ stopWebcam (stopWebcam c).1 = ((stopWebcam c).1, 0) := by
  cases c <;> exact ⟨rfl, rfl⟩

/-- C1 (amended): on a face tick the blink count increments by exactly one
iff the previous ratio was above the reopen threshold, the current ratio is
at or below the closed threshold, and STRICTLY more than `DEBOUNCE_MS`
(100 ms) elapsed since the last emitted blink; otherwise it is unchanged.
Crossings at most 100 ms apart are therefore a single blink, and a crossing
exactly 100 ms after the previous blink is rejected. -/
theorem C1_blinkIff (m bg : Bool) (now : ℤ) (ear : F) (s : ScanState) :
    ((tickFace m bg now ear s).blinkCount = s.blinkCount + 1 ↔
      fgt s.lastEAR (earOpen m) = true ∧ fle ear (earThreshold m) = true ∧
        DEBOUNCE_MS < now - s.lastBlinkTime) ∧
    ((tickFace m bg now ear s).blinkCount = s.blinkCount + 1 ∨
      (tickFace m bg now ear s).blinkCount = s.blinkCount) := by
  rw [tickFace_blinkCount]
  constructor
  · split_ifs with hc
    · simp only [Bool.and_eq_true, decide_eq_true_eq] at hc
      exact iff_of_true rfl ⟨hc.1.1, hc.1.2, hc.2⟩
    · refine iff_of_false (by omega) ?_
      rintro ⟨h1, h2, h3⟩
      exact hc (by simp [h1, h2, h3])
  · split_ifs
    · exact Or.inl rfl
    · exact Or.inr rfl

/-- C1 counterexample: with the previous ratio 0.3 above the desktop reopen
threshold, the current ratio 0.1 at the closed threshold, and the crossing
exactly 100 ms after the last emitted blink, the code rejects the blink
(count stays 1), contradicting the claim that a crossing exactly 100 ms
after the previous blink is accepted. -/
theorem C1_counterexample :
    fgt (F.fin (3 / 10)) (earOpen false) = true ∧
    fle (F.fin (1 / 10)) (earThreshold false) = true ∧
    (1100 : ℤ) - 1000 = DEBOUNCE_MS ∧
    (tickFace false false 1100 (F.fin (1 / 10))
      { initState with
          blinkCount := 1
          lastBlinkTime := 1000
          scanStartTime := 500 }).blinkCount = 1 := by
  decide

/-- C4: starting from a clean face-present state, the `n`-th consecutive
no-face tick leaves `faceDetected` true exactly up to the 10th and false
from the 11th on, and raises the low-light warning exactly from the 31st
on, with the counter equal to the number of ticks; and any single
face-detected tick resets the counter to 0 and clears both warnings. -/
theorem C4_watchdog :
    (∀ (s : ScanState) (n : ℕ), s.noFaceFrames = 0 → s.faceDetected = true →
      s.lowLightWarning = false →
      (tickNoFace^[n] s).noFaceFrames = n ∧
      (tickNoFace^[n] s).faceDetected = decide (n ≤ 10) ∧
      (tickNoFace^[n] s).lowLightWarning = decide (30 < n)) ∧
    (∀ (m bg : Bool) (now : ℤ) (ear : F) (s : ScanState),
      (tickFace m bg now ear s).noFaceFrames = 0 ∧
      (tickFace m bg now ear s).faceDetected = true ∧
      (tickFace m bg now ear s).lowLightWarning = false) := by
  constructor
  · intro s n h0 h1 h2
    induction n with
    | zero => simp [h0, h1, h2]
    | succ k ih =>
        obtain ⟨ha, hb, hc⟩ := ih
        rw [Function.iterate_succ_apply']
        refine ⟨?_, ?_, ?_⟩
        · simp [tickNoFace, ha]
        · simp only [tickNoFace, ha, hb]
          split_ifs with h
          · have : ¬ (k + 1 ≤ 10) := by omega
            simp [this]
          · have : k + 1 ≤ 10 := by omega
            have hk : k ≤ 10 := by omega
            simp [this, hk]
        · simp only [tickNoFace, ha, hc]
          split_ifs with h
          · have : 30 < k + 1 := h
            simp [this]
          · have h1k : ¬ (30 < k + 1) := h
            have h2k : ¬ (30 < k) := by omega
            simp [h1k, h2k]
  · intro m bg now ear s
    simp only [tickFace]
    split_ifs <;> simp_all

/-- C4 witness: from the initial state, 11 no-face ticks flip
`faceDetected` to false, 31 raise the low-light warning, and one face tick
resets counter and warnings. -/
theorem C4_watchdogWitness :
    (tickNoFace^[11] initState).faceDetected = false ∧
    (tickNoFace^[31] initState).lowLightWarning = true ∧
    (tickFace false false 5000 (F.fin (3 / 10)) (tickNoFace^[31] initState)).noFaceFrames = 0 := by
  refine ⟨?_, ?_, ?_⟩
  · rw [(C4_watchdog.1 initState 11 rfl rfl rfl).2.1]
    decide
  · rw [(C4_watchdog.1 initState 31 rfl rfl rfl).2.2]
    decide
  · exact (C4_watchdog.2 false false 5000 (F.fin (3 / 10)) _).1

theorem levelMsg_ne_crossVal (l : Stress) : levelMsg l ≠ Msg.crossVal := by
  cases l <;> simp [levelMsg]

/-- C2: the independent classification is a function of the blink rate alone
with thresholds low below 15, moderate from 15 to 25 inclusive, high above
25; whenever HRV is below 30 ms and the rate is above 25 the classification
handed to collaborators is high; and for rates at most 25 the
cross-validation rule never changes the classification. -/
theorem C2_classification (r : ℚ) (hrv : Option ℚ) :
    (independentLevel r =
      if r < 15 then Stress.low else if r ≤ 25 then Stress.moderate else Stress.high) ∧
    (∀ v, hrv = some v → v < 30 → 25 < r →
      (handleBlinkDetected r hrv).finalLevel = Stress.high) ∧
    (r ≤ 25 → (handleBlinkDetected r hrv).finalLevel = independentLevel r) := by
  refine ⟨?_, ?_, ?_⟩
  · rcases lt_or_le r 15 with h | h
    · have h2 : ¬ (15 ≤ r ∧ r ≤ 25) := fun hh => absurd hh.1 (not_le.mpr h)
      have h3 : ¬ (25 < r) := by linarith
      simp [independentLevel, h, h2, h3]
    · rcases le_or_lt r 25 with h4 | h4
      · have hb : 15 ≤ r ∧ r ≤ 25 := ⟨h, h4⟩
        simp [independentLevel, hb, not_lt.mpr h, h4]
      · have h2 : ¬ (15 ≤ r ∧ r ≤ 25) := fun hh => absurd hh.2 (not_le.mpr h4)
        have h3 : ¬ (r < 15) := by linarith
        have h5 : ¬ (r ≤ 25) := not_le.mpr h4
        simp [independentLevel, h2, h3, h4, h5]
  · rintro v rfl h30 h25
    by_cases hv0 : v = 0
    · have hno : ¬ (15 ≤ r ∧ r ≤ 25) := fun hh => absurd hh.2 (not_le.mpr h25)
      simp [handleBlinkDetected, crossValTriggered, truthy, independentLevel, hv0, hno, h25]
    · simp [handleBlinkDetected, crossValTriggered, truthy, hv0, h30, h25]
  · intro h25
    have hc : crossValTriggered r hrv = false := by
      unfold crossValTriggered
      simp [not_lt.mpr h25]
    simp [handleBlinkDetected, hc]

/-- C2 witness: blink rate 18 with HRV 20 ms stays moderate (the rule does
not fire at rates at most 25), and blink rate 30 with HRV 20 ms is high. -/
theorem C2_classificationWitness :
    (handleBlinkDetected 18 (some 20)).finalLevel = Stress.moderate ∧
    (handleBlinkDetected 30 (some 20)).finalLevel = Stress.high := by
  constructor
  · rw [(C2_classification 18 (some 20)).2.2 (by norm_num)]
    decide
  · exact (C2_classification 30 (some 20)).2.1 20 rfl (by norm_num) (by norm_num)

/-- C9: with the optional HRV argument exactly 0 or undefined the
cross-validation escalation never fires and the stored `hrv_value` is null;
the escalation fires exactly when the argument is defined, non-zero, below
30 ms and the blink rate is above 25. -/
theorem C9_crossValGuard (r : ℚ) (hrv : Option ℚ) :
    ((hrv = some 0 ∨ hrv = none) →
      (handleBlinkDetected r hrv).finalMsg = levelMsg (independentLevel r) ∧
      (handleBlinkDetected r hrv).finalLevel = independentLevel r ∧
      (handleBlinkDetected r hrv).storedHrv = none) ∧
    ((handleBlinkDetected r hrv).finalMsg = Msg.crossVal ↔
      ∃ v, hrv = some v ∧ v ≠ 0 ∧ v < 30 ∧ 25 < r) := by
  constructor
  · rintro (rfl | rfl) <;>
      simp [handleBlinkDetected, crossValTriggered, truthy]
  · cases hrv with
    | none =>
        simp [handleBlinkDetected, crossValTriggered, truthy, levelMsg_ne_crossVal]
    | some v =>
        by_cases hv0 : v = 0
        · simp [handleBlinkDetected, crossValTriggered, truthy, hv0, levelMsg_ne_crossVal]
        · by_cases h30 : v < 30
          · by_cases h25 : 25 < r
            · simp [handleBlinkDetected, crossValTriggered, truthy, hv0, h30, h25]
            · simp [handleBlinkDetected, crossValTriggered, truthy, hv0, h30, h25,
                levelMsg_ne_crossVal]
          · simp [handleBlinkDetected, crossValTriggered, truthy, hv0, h30,
              levelMsg_ne_crossVal]

/-- C9 witness: HRV exactly 0 never escalates and stores null even at blink
rate 30, while HRV 20 ms at blink rate 30 escalates. -/
theorem C9_crossValGuardWitness :
    (handleBlinkDetected 30 (some 0)).storedHrv = none ∧
    (handleBlinkDetected 30 (some 20)).finalMsg = Msg.crossVal := by
  constructor
  · exact ((C9_crossValGuard 30 (some 0)).1 (Or.inl rfl)).2.2
  · exact (C9_crossValGuard 30 (some 20)).2.mpr ⟨20, rfl, by norm_num, by norm_num, by norm_num⟩

/-- C5 (amended): on every tick whose landmark geometry is degenerate
(zero horizontal corner-to-corner distance, or ANY non-finite landmark
coordinate) no error is surfaced, but the aperture sample is NOT dropped:
the tick is processed as an ordinary sample and the stored previous ratio
is overwritten with the computed combined ratio.  When the degeneracy is a
zero horizontal distance or a NaN coordinate the computed ratio is
non-finite, and a tick with a non-finite ratio emits no blink (blink count
and last-blink time unchanged); an infinite coordinate, however, can make
the combined ratio finite, in which case the tick is handled like any
ordinary sample and can even emit a blink (see the counterexample). -/
theorem C5_degenerateTick (lm : List Pt) (m bg : Bool) (now : ℤ) (s : ScanState) :
    (degenerateLm lm →
      (processFrame m bg now (some lm) s).lastEAR = calculateEAR lm) ∧
    ((fdist (lm.getD 33 ptNan) (lm.getD 133 ptNan) = F.fin 0 ∨
      fdist (lm.getD 362 ptNan) (lm.getD 263 ptNan) = F.fin 0 ∨
      ∃ i ∈ usedIndices, hasNanPt (lm.getD i ptNan)) →
      NonfiniteF (calculateEAR lm)) ∧
    (NonfiniteF (calculateEAR lm) →
      (processFrame m bg now (some lm) s).blinkCount = s.blinkCount ∧
      (processFrame m bg now (some lm) s).lastBlinkTime = s.lastBlinkTime) := by
  refine ⟨?_, zeroHOrNan_nonfiniteEAR lm, ?_⟩
  · intro h
    simp only [processFrame, tickFace]
    split_ifs <;> rfl
  · intro hnf
    have hfle : fle (calculateEAR lm) (earThreshold m) = false := by
      rcases hnf with h1 | h1 <;> rw [h1] <;> rfl
    constructor <;>
      · simp only [processFrame, tickFace, hfle, Bool.and_false, Bool.false_and,
          Bool.false_eq_true, if_false]
        split_ifs <;> rfl

/-- C5 counterexample, refuting the original claim in two ways over its own
scope: (i) the all-coincident landmark set has zero horizontal corner
distance, yet processing it overwrites the stored previous ratio (0.3
becomes NaN) — the detector state is NOT unchanged; (ii) the landmark set
whose outer eye corners sit at `x = +Infinity` has a non-finite coordinate,
yet its combined ratio is the FINITE value 0, and processing it emits a
blink and increments the count — the sample is not dropped and a blink
event IS possible on a degenerate tick. -/
theorem C5_counterexample :
    degenerateLm degLm ∧
    (processFrame false false 5000 (some degLm) initState).lastEAR ≠ initState.lastEAR ∧
    degenerateLm infLm ∧
    calculateEAR infLm = F.fin 0 ∧
    (processFrame false false 5000 (some infLm) initState).blinkCount =
      initState.blinkCount + 1 := by
  refine ⟨Or.inl (by decide), by decide, ?_, by decide, by decide⟩
  exact Or.inr (Or.inr ⟨33, by decide, Or.inl (Or.inl (by decide))⟩)

theorem tickFace_scanStartTime (m bg : Bool) (now : ℤ) (ear : F) (s : ScanState) :
    (tickFace m bg now ear s).scanStartTime =
      if s.scanStartTime = 0 then now else s.scanStartTime := by
  simp only [tickFace]
  split_ifs <;> rfl

theorem tickFace_lastEAR (m bg : Bool) (now : ℤ) (ear : F) (s : ScanState) :
    (tickFace m bg now ear s).lastEAR = ear := by
  simp only [tickFace]
  split_ifs <;> rfl

theorem tickFace_done (m bg : Bool) (now : ℤ) (ear : F) (s : ScanState) :
    (tickFace m bg now ear s).done =
      if 60 ≤ ((now - (if s.scanStartTime = 0 then now else s.scanStartTime) : ℤ) : ℚ) / 1000
      then true else s.done := by
  simp only [tickFace]
  split_ifs <;> rfl

theorem tickFace_currentBlinkRate (m bg : Bool) (now : ℤ) (ear : F) (s : ScanState) :
    (tickFace m bg now ear s).currentBlinkRate =
      if 0 < ((now - (if s.scanStartTime = 0 then now else s.scanStartTime) : ℤ) : ℚ) / 1000
      then round3 (((if fgt s.lastEAR (earOpen m) && fle ear (earThreshold m) &&
            decide (DEBOUNCE_MS < now - s.lastBlinkTime) then s.blinkCount + 1
          else s.blinkCount : ℕ) : ℚ) /
          (((now - (if s.scanStartTime = 0 then now else s.scanStartTime) : ℤ) : ℚ) / 1000) * 60)
      else s.currentBlinkRate := by
  simp only [tickFace]
  split_ifs <;> rfl

theorem tickFace_result (m bg : Bool) (now : ℤ) (ear : F) (s : ScanState) :
    (tickFace m bg now ear s).result =
      if 60 ≤ ((now - (if s.scanStartTime = 0 then now else s.scanStartTime) : ℤ) : ℚ) / 1000
      then some (((if fgt s.lastEAR (earOpen m) && fle ear (earThreshold m) &&
            decide (DEBOUNCE_MS < now - s.lastBlinkTime) then s.blinkCount + 1
          else s.blinkCount : ℕ) : ℚ) /
          ((((now - (if s.scanStartTime = 0 then now else s.scanStartTime) : ℤ) : ℚ) / 1000) / 60))
      else s.result := by
  simp only [tickFace]
  split_ifs <;> rfl

theorem runTicks_done (m : Bool) (s : ScanState) (ts : List Tick) (h : s.done = true) :
    runTicks m s ts = s := by
  induction ts with
  | nil => rfl
  | cons t ts ih =>
      simp only [runTicks, List.foldl_cons]
      have hst : stepTick m s t = s := by simp [stepTick, h]
      rw [hst]
      exact ih

/-- C3: the elapsed time is measured from the first successful face tick
(the start time is recorded on that tick, and no rate update or termination
can fire on it); afterwards, with elapsed seconds `(now - t0)/1000`, the
exposed rate is recomputed each face tick as the post-detection blink count
over elapsed time times 60, rounded to 3 decimals; finalization happens
exactly when 60 s have elapsed, emitting `blinkCount / (elapsed/60)`; and a
finished session processes no further ticks, so the emission is one-time. -/
theorem C3_rateFinalize (m bg : Bool) (now t0 : ℤ) (ear : F) (s : ScanState) :
    (s.scanStartTime = 0 →
      (tickFace m bg now ear s).scanStartTime = now ∧
      (tickFace m bg now ear s).done = s.done ∧
      (tickFace m bg now ear s).result = s.result ∧
      (tickFace m bg now ear s).currentBlinkRate = s.currentBlinkRate) ∧
    (s.scanStartTime = t0 → t0 ≠ 0 →
      (tickFace m bg now ear s).scanStartTime = t0 ∧
      (0 < ((now - t0 : ℤ) : ℚ) / 1000 →
        (tickFace m bg now ear s).currentBlinkRate =
          round3 (((tickFace m bg now ear s).blinkCount : ℚ) /
            (((now - t0 : ℤ) : ℚ) / 1000) * 60)) ∧
      (s.done = false →
        ((tickFace m bg now ear s).done = true ↔ 60 ≤ ((now - t0 : ℤ) : ℚ) / 1000)) ∧
      (60 ≤ ((now - t0 : ℤ) : ℚ) / 1000 →
        (tickFace m bg now ear s).result =
          some (((tickFace m bg now ear s).blinkCount : ℚ) /
            ((((now - t0 : ℤ) : ℚ) / 1000) / 60)))) ∧
    (∀ ts : List Tick, s.done = true → runTicks m s ts = s) := by
  refine ⟨?_, ?_, fun ts h => runTicks_done m s ts h⟩
  · intro h0
    have hz : ((now - now : ℤ) : ℚ) / 1000 = 0 := by simp
    refine ⟨?_, ?_, ?_, ?_⟩
    · rw [tickFace_scanStartTime, if_pos h0]
    · rw [tickFace_done, if_pos h0, hz, if_neg (by norm_num)]
    · rw [tickFace_result, if_pos h0, hz, if_neg (by norm_num)]
    · rw [tickFace_currentBlinkRate, if_pos h0, hz, if_neg (by norm_num)]
  · intro ht h0
    have hss : (if s.scanStartTime = 0 then now else s.scanStartTime) = t0 := by
      rw [ht, if_neg h0]
    refine ⟨?_, ?_, ?_, ?_⟩
    · rw [tickFace_scanStartTime, hss]
    · intro hpos
      rw [tickFace_currentBlinkRate, hss, if_pos hpos, tickFace_blinkCount]
    · intro hdone
      rw [tickFace_done, hss]
      split_ifs with h
      · exact iff_of_true rfl h
      · exact iff_of_false (by simp [hdone]) h
    · intro hfin
      rw [tickFace_result, hss, if_pos hfin, tickFace_blinkCount]

/-- C3 witness: from a session started at 1000 ms with 20 blinks counted,
the face tick at 61000 ms (elapsed exactly 60 s, no blink on this tick)
finalizes with `blinkRatePerMinute` exactly 20. -/
theorem C3_rateFinalizeWitness :
    (tickFace false false 61000 (F.fin (3 / 10))
      { initState with scanStartTime := 1000, blinkCount := 20 }).result = some 20 := by
  have h := ((C3_rateFinalize false false 61000 1000 (F.fin (3 / 10))
      { initState with scanStartTime := 1000, blinkCount := 20 }).2.1 rfl
        (by norm_num)).2.2.2 (by norm_num)
  rw [h]
  decide

end ClaimTheorems

theorem stepTick_eraseBg {m : Bool} {s s2 : ScanState} {t u : Tick}
    (hs : eraseBg s = eraseBg s2) (htu : sameObs t u) :
    eraseBg (stepTick m s t) = eraseBg (stepTick m s2 u) := by
  obtain ⟨hnow, hdet⟩ := htu
  obtain ⟨c1, e1, b1, n1, st1, f1, l1, r1, res1, d1, bb1, bt1⟩ := s
  obtain ⟨c2, e2, b2, n2, st2, f2, l2, r2, res2, d2, bb2, bt2⟩ := s2
  simp only [eraseBg, ScanState.mk.injEq, and_true] at hs
  obtain ⟨h1, h2, h3, h4, h5, h6, h7, h8, h9, h10⟩ := hs
  subst h1 h2 h3 h4 h5 h6 h7 h8 h9 h10
  obtain ⟨tn, td, tb⟩ := t
  obtain ⟨un, ud, ub⟩ := u
  simp only at hnow hdet
  subst hnow hdet
  simp only [stepTick]
  split_ifs with hd
  · rfl
  · cases td with
    | none => rfl
    | some lm =>
        simp only [processFrame, tickFace]
        split_ifs <;> rfl

/-- C6: two runs over the same frame/landmark stream that differ only in
the backgrounded (visibility) flag produce identical observable states —
the final state and the whole per-tick trace agree on everything except the
background-mode bookkeeping, and in particular on `blinkCount` at every
tick; no tick is paused or skipped. -/
theorem C6_backgroundNoninterference (m : Bool) (s s2 : ScanState) (ts1 ts2 : List Tick)
    (hs : eraseBg s = eraseBg s2) (h : List.Forall₂ sameObs ts1 ts2) :
    eraseBg (runTicks m s ts1) = eraseBg (runTicks m s2 ts2) ∧
    List.Forall₂ (fun a b => a.blinkCount = b.blinkCount ∧ eraseBg a = eraseBg b)
      (runTrace m s ts1) (runTrace m s2 ts2) := by
  induction h generalizing s s2 with
  | nil => exact ⟨hs, List.Forall₂.nil⟩
  | @cons t u l1 l2 htu hrest ih =>
      have hstep := stepTick_eraseBg (m := m) hs htu
      have hcnt := congrArg ScanState.blinkCount hstep
      obtain ⟨ih1, ih2⟩ := ih (stepTick m s t) (stepTick m s2 u) hstep
      constructor
      · simpa [runTicks] using ih1
      · exact List.Forall₂.cons ⟨hcnt, hstep⟩ ih2

/-- C6 witness: a two-tick run with the backgrounded flag off is
observably identical to the same run with the flag on. -/
theorem C6_backgroundNoninterferenceWitness :
    eraseBg (runTicks false initState [⟨1000, none, false⟩, ⟨1050, none, false⟩]) =
      eraseBg (runTicks false initState [⟨1000, none, true⟩, ⟨1050, none, true⟩]) :=
  (C6_backgroundNoninterference false initState initState _ _ rfl
    (List.Forall₂.cons ⟨rfl, rfl⟩ (List.Forall₂.cons ⟨rfl, rfl⟩ List.Forall₂.nil))).1

section ConcreteHRV

attribute [local semireducible] Rat.add Rat.mul Rat.inv Rat.sub Rat.ofScientific

set_option maxRecDepth 10000

/-- C8 (spec-modelled, `HRVMonitor` source absent): the HRV estimator
yields no result when the buffer spans less than the minimum duration or
fewer than two peaks are detected; and on the synthetic 30-second 72 bpm
trace it yields a result whose heart rate is exactly 72 bpm (within the
±3 bpm tolerance) with a non-null RMSSD (its square is 0 for the perfectly
regular synthetic pulse). -/
theorem C8_hrvEstimator :
    (∀ samples : List PulseSample, traceDuration samples < 30000 →
      hrvEstimate 30000 samples = none) ∧
    (∀ samples : List PulseSample,
      (peakIndices (samples.map PulseSample.v)).length < 2 →
      hrvEstimate 30000 samples = none) ∧
    (∃ r : HRVResult, hrvEstimate 30000 synthTrace = some r ∧
      |r.heartRateBpm - 72| ≤ 3 ∧ r.rmssdSqMs = 0) := by
  refine ⟨?_, ?_, ?_⟩
  · intro samples h
    simp only [hrvEstimate]
    rw [if_pos h]
  · intro samples h
    by_cases hd : traceDuration samples < 30000
    · simp only [hrvEstimate]
      rw [if_pos hd]
    · simp only [hrvEstimate]
      rw [if_neg hd, if_pos h]
  · refine ⟨⟨0, 72, 181⟩, by decide, by norm_num, rfl⟩

/-- C8 witness: a single-sample buffer spans no duration and yields no
result, and a 40-second flat two-sample trace has no peaks and also yields
no result. -/
theorem C8_hrvEstimatorWitness :
    hrvEstimate 30000 [⟨0, 1⟩] = none ∧
    hrvEstimate 30000 [⟨0, 5⟩, ⟨40000, 5⟩] = none := by
  constructor
  · exact C8_hrvEstimator.1 [⟨0, 1⟩] (by decide)
  · exact C8_hrvEstimator.2.1 [⟨0, 5⟩, ⟨40000, 5⟩] (by decide)

end ConcreteHRV

section ConcreteWitnesses

attribute [local semireducible] Rat.add Rat.mul Rat.inv Rat.sub Rat.ofScientific

set_option maxRecDepth 10000

/-- C5 witness: the all-coincident landmark set is degenerate, its
combined ratio is non-finite, and its tick leaves the blink count
unchanged while overwriting the stored ratio with the combined ratio. -/
theorem C5_degenerateTickWitness :
    (processFrame false false 5000 (some degLm) initState).blinkCount = initState.blinkCount ∧
    (processFrame false false 5000 (some degLm) initState).lastEAR = calculateEAR degLm := by
  have h := C5_degenerateTick degLm false false 5000 initState
  exact ⟨(h.2.2 (h.2.1 (Or.inl (by decide)))).1, h.1 (Or.inl (by decide))⟩

/-- C1 witness: the same crossing one millisecond later (101 ms after the
last blink) is accepted and increments the count to 2. -/
theorem C1_blinkIffWitness :
    (tickFace false false 1101 (F.fin (1 / 10))
      { initState with
          blinkCount := 1
          lastBlinkTime := 1000
          scanStartTime := 500 }).blinkCount = 2 :=
  (C1_blinkIff false false 1101 (F.fin (1 / 10))
      { initState with
          blinkCount := 1
          lastBlinkTime := 1000
          scanStartTime := 500 }).1.mpr ⟨by decide, by decide, by decide⟩

end ConcreteWitnesses
